import Mathlib

/-!
Verification of the ts-yreducer state container and its example reducers.

The container (`useYReducer` in the source) wraps a host-provided single-slot
reactive cell: `useState(initialState)` yields the current state, and
`dispatch(action)` runs `setState(prevState => reducer(prevState, action))`.
We embed the host cell as a committed value plus a queue of pending functional
updaters, so that each dispatch folds over the latest pending value rather
than a stale snapshot, and a flush commits the accumulated result.

The README example reducers (counter and todo list) are embedded with JS
truthiness of the optional payload made explicit: `!payload` is true for a
missing payload, for the number 0 and for the empty string.
-/

universe u v

section HostCell

variable {σ : Type u} {α : Type v} {ε : Type u}

/-- Apply a queue of pending functional updaters, oldest first. -/
def applyUpdaters (s : σ) (fs : List (σ → σ)) : σ :=
  fs.foldl (fun v f => f v) s

/-- Modelled from the spec: the host single-slot reactive state cell
(the React `useState` runtime is not part of src/). It holds one committed
value and a queue of pending functional updaters; `setState` with an updater
enqueues it, and the host later folds the queue over the committed value. -/
structure HostCell (σ : Type u) where
  committed : σ
  pending : List (σ → σ)

/-- `setState(updater)` on the host cell: the updater is queued so that it
will see the latest pending value, not a stale snapshot. -/
def HostCell.setState (c : HostCell σ) (f : σ → σ) : HostCell σ :=
  { c with pending := c.pending ++ [f] }

/-- The value the cell is about to commit: all pending updaters folded over
the committed value. -/
def HostCell.current (c : HostCell σ) : σ :=
  applyUpdaters c.committed c.pending

/-- The host commits the pending updates into the cell. -/
def HostCell.flush (c : HostCell σ) : HostCell σ :=
  { committed := c.current, pending := [] }

/-- `dispatch` from `useYReducer`:
`setState((prevState) => reducer(prevState, action))`. -/
def dispatchCell (reducer : σ → α → σ) (c : HostCell σ) (action : α) :
    HostCell σ :=
  c.setState (fun prevState => reducer prevState action)

/-- Dispatch a sequence of actions in order through the container. -/
def dispatchAll (reducer : σ → α → σ) (c : HostCell σ) (actions : List α) :
    HostCell σ :=
  actions.foldl (dispatchCell reducer) c

/-- Dispatch a single action from a quiescent cell holding `s` and let the
host commit: the observable state transition of one dispatch. -/
def commitDispatch (reducer : σ → α → σ) (s : σ) (action : α) : σ :=
  ((dispatchCell reducer { committed := s, pending := [] } action).flush).committed

/-- Modelled from the spec: the host cell initializer semantics of
`useState(initialState)` (React is not part of src/). On first construction
the cell is empty and stores the initializer; on every later invocation the
initializer argument is ignored and the stored value is returned — the
initializer is read exactly once. Returns (state read, cell afterwards). -/
def useStateInit (cell : Option σ) (initialState : σ) : σ × Option σ :=
  match cell with
  | none => (initialState, some initialState)
  | some v => (v, some v)

/-- The state-reading part of one invocation of
`useYReducer(initialState, reducer)`: it forwards `initialState` to the host
cell via `useState` and returns the state the cell yields. -/
def useYReducerState (initialState : σ) (cell : Option σ) : σ × Option σ :=
  useStateInit cell initialState

/-- Modelled from the spec: the host cell's `setState` when the supplied
updater may throw (§7 error policy). If the updater returns normally the
result is committed; if it throws, the exception propagates and the cell
keeps its previously committed value. Returns (outcome, cell value after). -/
def setStateExc (current : σ) (updater : σ → Except ε σ) : Except ε σ × σ :=
  match updater current with
  | Except.ok next => (Except.ok next, next)
  | Except.error e => (Except.error e, current)

/-- `dispatch` for a reducer that may throw: the container passes
`(prevState) => reducer(prevState, action)` to the host cell and adds no
handling of its own. -/
def dispatchExc (reducer : σ → α → Except ε σ) (current : σ) (action : α) :
    Except ε σ × σ :=
  setStateExc current (fun prevState => reducer prevState action)

end HostCell

section Examples

/-- JS truthiness of an optional numeric payload: `!payload` is true when the
payload is missing or is the number 0. -/
def jsTruthyInt (payload : Option Int) : Bool :=
  match payload with
  | none => false
  | some n => decide (n ≠ 0)

/-- JS truthiness of an optional string payload: `!payload` is true when the
payload is missing or is the empty string. -/
def jsTruthyStr (payload : Option String) : Bool :=
  match payload with
  | none => false
  | some s => decide (s ≠ "")

/-- State of the README counter example. -/
structure CounterState where
  count : Int
deriving DecidableEq, Repr

/-- Action of the README counter example: a string discriminant `key` and an
optional numeric payload. -/
structure CounterAction where
  key : String
  payload : Option Int
deriving DecidableEq, Repr

/-- The README counter reducer: increment and decrement guard on payload
truthiness and otherwise return the state unchanged; reset returns
`{count: 0}`; unrecognized keys fall through to `default: return state`. -/
def counterReducer (state : CounterState) (action : CounterAction) :
    CounterState :=
  match action.key with
  | "increment" =>
      if jsTruthyInt action.payload = false then state
      else { count := state.count + action.payload.getD 0 }
  | "decrement" =>
      if jsTruthyInt action.payload = false then state
      else { count := state.count - action.payload.getD 0 }
  | "reset" => { count := 0 }
  | _ => state

/-- Filter keys of the README todo example. -/
inductive FilterKey where
  | all
  | completed
  | active
deriving DecidableEq, Repr

/-- State of the README todo example. -/
structure TodoState where
  todos : List String
  filter : FilterKey
deriving DecidableEq, Repr

/-- Actions of the README todo example, a discriminated union whose payload
type depends on the discriminant; each payload is optional in the source
action shape. -/
inductive TodoAction where
  | add (payload : Option String)
  | remove (payload : Option Int)
  | setFilter (payload : Option FilterKey)
deriving DecidableEq, Repr

/-- `state.todos.filter((_, idx) => idx !== payload)`: keep the elements
whose index differs from the payload. -/
def filterOutIndex (todos : List String) (payload : Int) : List String :=
  (todos.enum.filter (fun p => decide ((p.1 : Int) ≠ payload))).map Prod.snd

/-- The README todo reducer: each case first throws on a falsy payload, then
spreads the previous state replacing only its own field. A `FilterKey`
payload is a non-empty string in the source, hence truthy whenever present. -/
def todoReducer (state : TodoState) (action : TodoAction) :
    Except String TodoState :=
  match action with
  | TodoAction.add payload =>
      if jsTruthyStr payload = false then Except.error "Todo is required"
      else Except.ok { state with todos := state.todos ++ [payload.getD ""] }
  | TodoAction.remove payload =>
      if jsTruthyInt payload = false then Except.error "Index is required"
      else Except.ok
        { state with todos := filterOutIndex state.todos (payload.getD 0) }
  | TodoAction.setFilter payload =>
      match payload with
      | none => Except.error "Filter key is required"
      | some f => Except.ok { state with filter := f }

end Examples

section Lemmas

variable {σ : Type u} {α : Type v}

lemma applyUpdaters_append (s : σ) (fs : List (σ → σ)) (f : σ → σ) :
    applyUpdaters s (fs ++ [f]) = f (applyUpdaters s fs) := by
  simp [applyUpdaters, List.foldl_append]

lemma current_setState (c : HostCell σ) (f : σ → σ) :
    (c.setState f).current = f c.current := by
  simp [HostCell.setState, HostCell.current, applyUpdaters_append]

lemma current_dispatchAll (r : σ → α → σ) (c : HostCell σ) (as : List α) :
    (dispatchAll r c as).current = as.foldl r c.current := by
  induction as generalizing c with
  | nil => rfl
  | cons a as ih =>
      simp only [dispatchAll, List.foldl_cons] at *
      rw [ih]
      simp [dispatchCell, current_setState]

end Lemmas

section Claims

/-- C1: for every initial state s0 and every sequence of actions dispatched
in order through the dispatch function of useYReducer, the committed state
after the host flushes equals the left-to-right fold of the reducer over the
sequence: each dispatch's reducer application sees the result of the previous
dispatch as its current state, because the cell folds over the latest pending
value rather than a stale snapshot. -/
theorem dispatch_sequence_folds_left {σ : Type u} {α : Type v}
    (reducer : σ → α → σ) (s0 : σ) (actions : List α) :
    ((dispatchAll reducer { committed := s0, pending := [] } actions).flush).committed
      = actions.foldl reducer s0 := by
  show (dispatchAll reducer { committed := s0, pending := [] } actions).current
      = actions.foldl reducer s0
  rw [current_dispatchAll]
  rfl

/-- C2: if the reducer throws on (current state, action) then the exception
propagates to the caller of dispatch and the committed value is exactly the
previous one; and dispatch yields an exception only when the reducer does —
the container itself never fails. -/
theorem reducer_exception_propagates {σ ε : Type u} {α : Type v}
    (reducer : σ → α → Except ε σ) (s : σ) (a : α) :
    (∀ e, reducer s a = Except.error e →
      dispatchExc reducer s a = (Except.error e, s)) ∧
    (∀ e, (dispatchExc reducer s a).1 = Except.error e →
      reducer s a = Except.error e) := by
  constructor
  · intro e h
    simp [dispatchExc, setStateExc, h]
  · intro e h
    cases hr : reducer s a with
    | ok v => simp [dispatchExc, setStateExc, hr] at h
    | error e2 =>
        simp [dispatchExc, setStateExc, hr] at h
        rw [h]

theorem reducer_exception_propagates_witness :
    dispatchExc todoReducer ⟨["x"], FilterKey.all⟩ (TodoAction.remove (some 0))
      = (Except.error "Index is required", ⟨["x"], FilterKey.all⟩) :=
  (reducer_exception_propagates todoReducer ⟨["x"], FilterKey.all⟩
    (TodoAction.remove (some 0))).1 "Index is required" rfl

/-- C3 counterexample: the claimed second step of the todo scenario fails on
the code. From {todos:["x"],filter:"all"}, dispatching {key:"remove",payload:0}
does not yield {todos:[],filter:"all"}: payload 0 is falsy, so the reducer
throws "Index is required". -/
theorem todo_scenario_remove_zero_counterexample :
    todoReducer ⟨["x"], FilterKey.all⟩ (TodoAction.remove (some 0))
        = Except.error "Index is required" ∧
      todoReducer ⟨["x"], FilterKey.all⟩ (TodoAction.remove (some 0))
        ≠ Except.ok ⟨[], FilterKey.all⟩ :=
  ⟨rfl, fun h => nomatch h⟩

/-- C3 amended: from the initial state {todos:[],filter:"all"}, dispatching
{key:"add",payload:"x"} yields {todos:["x"],filter:"all"}; then dispatching
{key:"remove",payload:0} throws "Index is required" and leaves the state at
{todos:["x"],filter:"all"}; then dispatching {key:"setFilter",payload:"active"}
yields {todos:["x"],filter:"active"}. -/
theorem todo_scenario_amended :
    dispatchExc todoReducer ⟨[], FilterKey.all⟩ (TodoAction.add (some "x"))
        = (Except.ok ⟨["x"], FilterKey.all⟩, ⟨["x"], FilterKey.all⟩) ∧
      dispatchExc todoReducer ⟨["x"], FilterKey.all⟩ (TodoAction.remove (some 0))
        = (Except.error "Index is required", ⟨["x"], FilterKey.all⟩) ∧
      dispatchExc todoReducer ⟨["x"], FilterKey.all⟩
          (TodoAction.setFilter (some FilterKey.active))
        = (Except.ok ⟨["x"], FilterKey.active⟩, ⟨["x"], FilterKey.active⟩) :=
  ⟨rfl, rfl, rfl⟩

/-- C4: the initialState argument is read exactly once, at first
construction. Re-invoking useYReducer on an already-initialized cell holding
v with a different initialState returns v and leaves the cell at v: the
state is not reset to the new initial value. -/
theorem initial_state_read_once {σ : Type u} (v init2 : σ) (_h : init2 ≠ v) :
    useYReducerState init2 (some v) = (v, some v) :=
  rfl

theorem initial_state_read_once_witness :
    useYReducerState (⟨1⟩ : CounterState) (some ⟨0⟩) = (⟨0⟩, some ⟨0⟩) :=
  initial_state_read_once (⟨0⟩ : CounterState) ⟨1⟩ (by decide)

/-- C5: with the example counter reducer, dispatching
{key:"increment",payload:0} leaves every state unchanged: the falsy payload 0
fails the reducer's truthiness check, so the increment case returns the
state as is. -/
theorem increment_falsy_payload_noop (s : CounterState) :
    commitDispatch counterReducer s ⟨"increment", some 0⟩ = s :=
  rfl

/-- C6: for every state s and action a, if the reducer follows the convention
of returning its input state unchanged on a's discriminant, then dispatching
a commits a state equal to s. -/
theorem unrecognized_action_noop {σ : Type u} {α : Type v}
    (reducer : σ → α → σ) (s : σ) (a : α) (h : reducer s a = s) :
    commitDispatch reducer s a = s :=
  h

theorem unrecognized_action_noop_witness :
    commitDispatch counterReducer ⟨5⟩ ⟨"bogus", none⟩ = ⟨5⟩ :=
  unrecognized_action_noop counterReducer ⟨5⟩ ⟨"bogus", none⟩ rfl

/-- C7: the counter scenario. From {count:0}, dispatching
{key:"increment",payload:1} commits {count:1}; again commits {count:2};
{key:"decrement",payload:1} commits {count:1}; {key:"reset"} commits
{count:0}. -/
theorem counter_scenario :
    commitDispatch counterReducer ⟨0⟩ ⟨"increment", some 1⟩ = ⟨1⟩ ∧
      commitDispatch counterReducer ⟨1⟩ ⟨"increment", some 1⟩ = ⟨2⟩ ∧
      commitDispatch counterReducer ⟨2⟩ ⟨"decrement", some 1⟩ = ⟨1⟩ ∧
      commitDispatch counterReducer ⟨1⟩ ⟨"reset", none⟩ = ⟨0⟩ :=
  ⟨rfl, rfl, rfl, rfl⟩

/-- C8: the example todo reducer throws on every falsy payload in each
handled case: add with the empty string or a missing payload throws
"Todo is required"; remove with 0 or a missing payload throws
"Index is required"; setFilter with a missing payload throws
"Filter key is required". -/
theorem todo_falsy_payload_throws (s : TodoState) :
    todoReducer s (TodoAction.add (some "")) = Except.error "Todo is required" ∧
      todoReducer s (TodoAction.add none) = Except.error "Todo is required" ∧
      todoReducer s (TodoAction.remove (some 0)) = Except.error "Index is required" ∧
      todoReducer s (TodoAction.remove none) = Except.error "Index is required" ∧
      todoReducer s (TodoAction.setFilter none) = Except.error "Filter key is required" :=
  ⟨rfl, rfl, rfl, rfl, rfl⟩

/-- C9: frame conditions of the example todo reducer. For every state and
every truthy payload, setFilter succeeds and leaves the todos field
unchanged, and add and remove succeed and leave the filter field unchanged. -/
theorem todo_frame_conditions (s : TodoState) :
    (∀ f, ∃ u, todoReducer s (TodoAction.setFilter (some f)) = Except.ok u ∧
      u.todos = s.todos) ∧
    (∀ t, t ≠ "" → ∃ u, todoReducer s (TodoAction.add (some t)) = Except.ok u ∧
      u.filter = s.filter) ∧
    (∀ n : Int, n ≠ 0 → ∃ u, todoReducer s (TodoAction.remove (some n)) = Except.ok u ∧
      u.filter = s.filter) := by
  refine ⟨fun f => ⟨{ s with filter := f }, rfl, rfl⟩, ?_, ?_⟩
  · intro t ht
    refine ⟨{ s with todos := s.todos ++ [t] }, ?_, rfl⟩
    simp [todoReducer, jsTruthyStr, ht]
  · intro n hn
    refine ⟨{ s with todos := filterOutIndex s.todos n }, ?_, rfl⟩
    simp [todoReducer, jsTruthyInt, hn]

theorem todo_frame_conditions_witness :
    ∃ u, todoReducer ⟨["a"], FilterKey.all⟩ (TodoAction.add (some "x"))
      = Except.ok u ∧ u.filter = FilterKey.all :=
  (todo_frame_conditions ⟨["a"], FilterKey.all⟩).2.1 "x" (by decide)

/-- C10: dispatch is deterministic. For one pure reducer, two dispatches
from equal committed states with equal actions commit equal next states:
the committed result depends only on the previous committed state and the
action. -/
theorem dispatch_deterministic {σ : Type u} {α : Type v}
    (reducer : σ → α → σ) (s1 s2 : σ) (a1 a2 : α)
    (hs : s1 = s2) (ha : a1 = a2) :
    commitDispatch reducer s1 a1 = commitDispatch reducer s2 a2 := by
  rw [hs, ha]

theorem dispatch_deterministic_witness :
    commitDispatch counterReducer ⟨0⟩ ⟨"increment", some 1⟩
      = commitDispatch counterReducer ⟨0⟩ ⟨"increment", some 1⟩ :=
  dispatch_deterministic counterReducer ⟨0⟩ ⟨0⟩ ⟨"increment", some 1⟩
    ⟨"increment", some 1⟩ rfl rfl

end Claims
